import Mathlib

/-!
Verification of the Influencer Campaign ROI Dashboard core pipeline
(`prac.py`) against its natural-language specification.

The script is a pandas/Streamlit dashboard.  We shallowly embed its
analytic core:

* `clean_and_engineer` (prac.py lines 63-76): per-row metric derivation.
  Pandas computes the derived columns elementwise; a denominator that is
  `0` is first replaced by `NaN` (`.replace(0, np.nan)`), and any
  arithmetic involving `NaN` yields `NaN`.  We model a `NaN`/null metric
  value as `none : Option ℚ` and exact numbers as rationals.
* the filter mask `flt` and the view `data = df[flt]` (lines 133-144),
* the seasonality column assignment `data["year_month"] = ...` (line 429),
* the overview/funnel aggregate divisions (lines 171, 188, 280-286),
* the outlier subset `outlier_df` (lines 456-460),
* `nlargest` / `nsmallest` selection (lines 314, 333),
* the column-access behaviour of `clean_and_engineer` on tables with
  missing columns (pandas raises `KeyError(col)` at the first missing
  column read; no schema validation exists in the script).
-/

/-- Calendar date, as parsed by `pd.to_datetime` (year, month, day).
Only its ordering and its year-month truncation matter to the script. -/
structure CDate where
  y : Int
  m : Int
  d : Int
deriving DecidableEq, Repr

/-- Lexicographic order on calendar dates, as used by
`df["date"].dt.date.between(date_min, date_max)` (prac.py line 134). -/
def CDate.le (a b : CDate) : Bool :=
  decide (a.y < b.y) ||
    (decide (a.y = b.y) &&
      (decide (a.m < b.m) || (decide (a.m = b.m) && decide (a.d ≤ b.d))))

/-- Year-month truncation `date.dt.to_period("M")` (prac.py lines 211, 429). -/
def CDate.yearMonth (a : CDate) : Int × Int := (a.y, a.m)

/-- Raw uploaded row with the fourteen documented columns
(prac.py lines 20-36); counts are non-negative integers and currency
amounts are exact rationals. -/
structure RawRecord where
  date : CDate
  name : String
  platform : String
  campaign : String
  category : String
  gender : String
  basis : String
  reach : Nat
  followers : Nat
  likes : Nat
  comments : Nat
  orders : Nat
  revenue : ℚ
  total_payout : ℚ
deriving DecidableEq, Repr

/-- Row after `clean_and_engineer` (prac.py lines 63-76): the base
columns plus the derived metric columns.  `year_month` models the column
added later at line 429 (absent, i.e. `none`, right after cleaning). -/
structure Record extends RawRecord where
  engagement : Nat
  engagement_rate : Option ℚ
  roas : Option ℚ
  roi_percentage : Option ℚ
  average_order_value : Option ℚ
  performance_category : String
  year_month : Option (Int × Int)
deriving DecidableEq, Repr

/-- Performance-classification lambda (prac.py lines 70-75).  In the
source it is applied to the float column `roi_percentage`; when that
value is `NaN` (zero payout), every comparison `x >= t` is false, so the
chain falls through to `"Poor Performer"`.  We model `NaN` as `none`. -/
def perfCat : Option ℚ → String
  | none => "Poor Performer"
  | some x =>
      if x ≥ 200 then "High Performer"
      else if x ≥ 100 then "Good Performer"
      else if x ≥ 0 then "Average Performer"
      else "Poor Performer"

/-- Per-row semantics of `clean_and_engineer` (prac.py lines 63-76).
Each derived column divides by a base column whose zeros were replaced
by `NaN` via `.replace(0, np.nan)`; dividing by `NaN` yields `NaN`
(modelled `none`), otherwise the exact rational quotient. -/
def clean_and_engineer (r : RawRecord) : Record :=
  let engagement := r.likes + r.comments
  let engagement_rate : Option ℚ :=
    if r.reach = 0 then none else some ((engagement : ℚ) / (r.reach : ℚ) * 100)
  let roas : Option ℚ :=
    if r.total_payout = 0 then none else some (r.revenue / r.total_payout)
  let roi_percentage : Option ℚ :=
    if r.total_payout = 0 then none
    else some ((r.revenue - r.total_payout) / r.total_payout * 100)
  let average_order_value : Option ℚ :=
    if r.orders = 0 then none else some (r.revenue / (r.orders : ℚ))
  { r with
    engagement := engagement
    engagement_rate := engagement_rate
    roas := roas
    roi_percentage := roi_percentage
    average_order_value := average_order_value
    performance_category := perfCat roi_percentage
    year_month := none }

/-- Raw row with zero payout and positive revenue, for exercising the
zero-denominator paths. -/
def rZeroPayout : RawRecord :=
  { date := ⟨2024, 1, 1⟩, name := "I1", platform := "Instagram",
    campaign := "Spring", category := "Beauty", gender := "Female",
    basis := "Post", reach := 10, followers := 11, likes := 3,
    comments := 1, orders := 2, revenue := 100, total_payout := 0 }

/-- C1: for a record with `total_payout = 0` the code does derive null
`roas` and `roi_percentage`, but its `performance_category` is
`"Poor Performer"` — the `NaN` falls through every threshold comparison
(prac.py lines 70-75) — and the classification's range is exactly the
four performer bands, so no distinct `Unclassified` category exists,
contradicting the spec's required explicit `Unclassified` state. -/
theorem C1_zero_payout_is_poor_not_unclassified :
    (clean_and_engineer rZeroPayout).roas = none ∧
    (clean_and_engineer rZeroPayout).roi_percentage = none ∧
    (clean_and_engineer rZeroPayout).performance_category = "Poor Performer" ∧
    (∀ x : Option ℚ, perfCat x ∈
      ["High Performer", "Good Performer", "Average Performer",
       "Poor Performer"]) := by
  refine ⟨rfl, rfl, rfl, ?_⟩
  intro x
  match x with
  | none => decide
  | some v =>
      simp only [perfCat]
      split_ifs <;> decide

/-- Example rows of spec §8: payouts 1000 and 500, revenues 3000 and 250. -/
def rHigh : RawRecord :=
  { date := ⟨2024, 1, 1⟩, name := "A", platform := "Instagram",
    campaign := "Spring", category := "Beauty", gender := "Female",
    basis := "Post", reach := 10000, followers := 11000, likes := 350,
    comments := 40, orders := 27, revenue := 3000, total_payout := 1000 }

/-- Second example row of spec §8 (payout 500, revenue 250). -/
def rPoor : RawRecord :=
  { rHigh with name := "B", revenue := 250, total_payout := 500 }

/-- C2: for positive payout the ROI is defined and the threshold chain
assigns exactly one band, with inclusive lower bounds
`[200,∞)→High`, `[100,200)→Good`, `[0,100)→Average`, `(-∞,0)→Poor`;
the spec's example rows classify as High (ROI 200) and Poor (ROI -50). -/
theorem C2_threshold_bands :
    (∀ r : RawRecord, r.total_payout ≠ 0 →
      (clean_and_engineer r).roi_percentage =
        some ((r.revenue - r.total_payout) / r.total_payout * 100)) ∧
    (∀ x : ℚ,
      (perfCat (some x) = "High Performer" ↔ 200 ≤ x) ∧
      (perfCat (some x) = "Good Performer" ↔ 100 ≤ x ∧ x < 200) ∧
      (perfCat (some x) = "Average Performer" ↔ 0 ≤ x ∧ x < 100) ∧
      (perfCat (some x) = "Poor Performer" ↔ x < 0)) ∧
    (clean_and_engineer rHigh).roi_percentage = some 200 ∧
    (clean_and_engineer rHigh).performance_category = "High Performer" ∧
    (clean_and_engineer rPoor).roi_percentage = some (-50) ∧
    (clean_and_engineer rPoor).performance_category = "Poor Performer" := by
  refine ⟨?_, ?_, ?_, ?_, ?_, ?_⟩
  · intro r h
    simp only [clean_and_engineer, if_neg h]
  · intro x
    simp only [perfCat]
    split_ifs with h1 h2 h3
    · exact ⟨iff_of_true rfl h1,
        iff_of_false (by decide) (by rintro ⟨a, b⟩; linarith),
        iff_of_false (by decide) (by rintro ⟨a, b⟩; linarith),
        iff_of_false (by decide) (by intro h; linarith)⟩
    · exact ⟨iff_of_false (by decide) h1,
        iff_of_true rfl ⟨h2, by linarith [not_le.mp h1]⟩,
        iff_of_false (by decide) (by rintro ⟨a, b⟩; linarith),
        iff_of_false (by decide) (by intro h; linarith)⟩
    · exact ⟨iff_of_false (by decide) h1,
        iff_of_false (by decide) (by rintro ⟨a, b⟩; exact h2 a),
        iff_of_true rfl ⟨h3, by linarith [not_le.mp h2]⟩,
        iff_of_false (by decide) (by intro h; linarith)⟩
    · exact ⟨iff_of_false (by decide) h1,
        iff_of_false (by decide) (by rintro ⟨a, b⟩; exact h2 a),
        iff_of_false (by decide) (by rintro ⟨a, b⟩; exact h3 a),
        iff_of_true rfl (not_le.mp h3)⟩
  · norm_num [clean_and_engineer, rHigh]
  · norm_num [clean_and_engineer, rHigh, perfCat]
  · norm_num [clean_and_engineer, rPoor, rHigh]
  · norm_num [clean_and_engineer, rPoor, rHigh, perfCat]

/-- Witness for C2 at the concrete example rows. -/
theorem C2_threshold_bands_witness :
    (clean_and_engineer rHigh).roi_percentage =
      some ((rHigh.revenue - rHigh.total_payout) / rHigh.total_payout * 100) ∧
    (perfCat (some 200) = "High Performer" ↔ (200 : ℚ) ≤ 200) :=
  ⟨C2_threshold_bands.1 rHigh (by norm_num [rHigh]),
   C2_threshold_bands.2.1 200 |>.1⟩

/-- C3: each derived metric whose denominator base field is zero comes
out null (`none`): `reach = 0` nulls `engagement_rate`,
`total_payout = 0` nulls `roas` and `roi_percentage`, `orders = 0` nulls
`average_order_value`.  `clean_and_engineer` is a total function (no
error path), and a null metric is `none`, never `some 0`. -/
theorem C3_zero_denominator_null (r : RawRecord) :
    (r.reach = 0 → (clean_and_engineer r).engagement_rate = none) ∧
    (r.total_payout = 0 →
      (clean_and_engineer r).roas = none ∧
      (clean_and_engineer r).roi_percentage = none) ∧
    (r.orders = 0 → (clean_and_engineer r).average_order_value = none) := by
  refine ⟨?_, ?_, ?_⟩ <;> intro h <;> simp [clean_and_engineer, h]

/-- Raw row whose reach, orders and payout are all zero (revenue 100). -/
def rAllZero : RawRecord :=
  { rZeroPayout with reach := 0, orders := 0, likes := 0, comments := 0 }

/-- Witness for C3 at a row with all denominator fields zero. -/
theorem C3_zero_denominator_null_witness :
    (clean_and_engineer rAllZero).engagement_rate = none ∧
    ((clean_and_engineer rAllZero).roas = none ∧
      (clean_and_engineer rAllZero).roi_percentage = none) ∧
    (clean_and_engineer rAllZero).average_order_value = none :=
  ⟨(C3_zero_denominator_null rAllZero).1 rfl,
   (C3_zero_denominator_null rAllZero).2.1 rfl,
   (C3_zero_denominator_null rAllZero).2.2 rfl⟩

/-- Sidebar filter selections (prac.py lines 97-130): a date range, the
four multiselect permitted sets, and the performance band selectbox. -/
structure FilterSpec where
  date_min : CDate
  date_max : CDate
  campaigns : List String
  platforms : List String
  categories : List String
  genders : List String
  perf_band : String
deriving DecidableEq, Repr

/-- Row predicate of the boolean mask `flt` (prac.py lines 133-142): the
conjunction of `date.between`, the four `isin` membership tests, and —
when the band selectbox is not `"All"` — equality of
`performance_category` with the selected band. -/
def flt (S : FilterSpec) (r : Record) : Bool :=
  CDate.le S.date_min r.date && CDate.le r.date S.date_max &&
  S.campaigns.contains r.campaign &&
  S.platforms.contains r.platform &&
  S.categories.contains r.category &&
  S.genders.contains r.gender &&
  (if S.perf_band = "All" then true
   else r.performance_category == S.perf_band)

/-- Filtered view `data = df[flt]` (prac.py line 144).  Pandas boolean
mask selection returns a new frame holding the rows where the mask is
true, in their original order. -/
def filterData (S : FilterSpec) (df : List Record) : List Record :=
  df.filter (flt S)

/-- C4: filtering is idempotent — applying the same `FilterSpec` to an
already-filtered view changes nothing. -/
theorem C4_filter_idempotent (S : FilterSpec) (D : List Record) :
    filterData S (filterData S D) = filterData S D := by
  simp only [filterData, List.filter_filter]
  congr 1
  funext r
  exact Bool.and_self (flt S r)

/-- C5: an empty permitted set in any of the four multiselect fields
makes the `isin` test false for every row, so the filtered view is
empty regardless of the other filter settings. -/
theorem C5_empty_multiselect_empty_view (S : FilterSpec) (D : List Record)
    (h : S.campaigns = [] ∨ S.platforms = [] ∨
         S.categories = [] ∨ S.genders = []) :
    filterData S D = [] := by
  rw [filterData, List.filter_eq_nil_iff]
  intro r hr
  rcases h with h | h | h | h <;> simp [flt, h]

/-- FilterSpec whose permitted platform set is empty but whose other
settings accept the example row `rHigh`. -/
def specNoPlatforms : FilterSpec :=
  { date_min := ⟨2023, 1, 1⟩, date_max := ⟨2025, 1, 1⟩,
    campaigns := ["Spring"], platforms := [], categories := ["Beauty"],
    genders := ["Female"], perf_band := "All" }

/-- Witness for C5: with an empty platform set the view over a
non-empty dataset is empty. -/
theorem C5_empty_multiselect_empty_view_witness :
    filterData specNoPlatforms [clean_and_engineer rHigh] = [] :=
  C5_empty_multiselect_empty_view specNoPlatforms
    [clean_and_engineer rHigh] (Or.inr (Or.inl rfl))

/-- Session-level state of the script: the normalized dataset `df`
(prac.py line 84/92) and the filtered view `data` (line 144).  Each
relevant source statement becomes a state transformer, so that what a
statement assigns — and what it leaves untouched — is explicit. -/
structure Session where
  df : List Record
  data : List Record
deriving Repr

/-- Statement `data = df[flt]` (prac.py line 144).  Pandas boolean-mask
selection returns a fresh copy; only the `data` variable is assigned. -/
def assignData (S : FilterSpec) (s : Session) : Session :=
  { s with data := filterData S s.df }

/-- Statement `data["year_month"] = data["date"].dt.to_period("M")`
(prac.py line 429).  It adds a column to the view `data`, which is a
copy produced by boolean-mask selection, so `df` is not written. -/
def assignYearMonth (s : Session) : Session :=
  { s with data := s.data.map fun r => { r with year_month := some r.date.yearMonth } }

/-- C9: computing the filtered view — and even the later seasonality
column assignment on that view — leaves the normalized dataset `df`
with exactly the records and field values it had before; filtering only
produces a new collection from `df`. -/
theorem C9_filter_never_mutates_dataset (S : FilterSpec) (s : Session) :
    (assignData S s).df = s.df ∧
    (assignYearMonth (assignData S s)).df = s.df ∧
    (assignData S s).data = filterData S s.df := by
  exact ⟨rfl, rfl, rfl⟩

/-- Sum of the `revenue` column (`data["revenue"].sum()`). -/
def sumRevenue (v : List Record) : ℚ := (v.map fun r => r.revenue).sum

/-- Sum of the `total_payout` column (`data["total_payout"].sum()`). -/
def sumPayout (v : List Record) : ℚ := (v.map fun r => r.total_payout).sum

/-- Sum of the `orders` column (`data["orders"].sum()`). -/
def sumOrders (v : List Record) : Nat := (v.map fun r => r.orders).sum

/-- Sum of the `reach` column (`data["reach"].sum()`). -/
def sumReach (v : List Record) : Nat := (v.map fun r => r.reach).sum

/-- Sum of the derived `engagement` column (`data["engagement"].sum()`). -/
def sumEngagement (v : List Record) : Nat := (v.map fun r => r.engagement).sum

/-- Overall ROI KPI (prac.py line 171): a plain division by the summed
payout, with no zero-denominator guard.  (Over rationals `x / 0 = 0`;
numpy instead yields `inf`/`NaN` with a warning — in either model the
result is a value of the numeric type, not the `none` of the per-row
metrics.) -/
def roi_all (v : List Record) : ℚ :=
  (sumRevenue v - sumPayout v) / sumPayout v * 100

/-- Cost-per-order KPI (prac.py line 188): unguarded division by the
summed orders. -/
def cost_per_order (v : List Record) : ℚ :=
  sumPayout v / (sumOrders v : ℚ)

/-- Funnel conversion efficiency (prac.py line 280): orders over reach. -/
def conversion_efficiency (v : List Record) : ℚ :=
  (sumOrders v : ℚ) / (sumReach v : ℚ) * 100

/-- Funnel ratio reach → engagement (prac.py line 283). -/
def reach_to_engagement (v : List Record) : ℚ :=
  (sumEngagement v : ℚ) / (sumReach v : ℚ) * 100

/-- Funnel ratio engagement → order (prac.py line 284). -/
def engagement_to_order (v : List Record) : ℚ :=
  (sumOrders v : ℚ) / (sumEngagement v : ℚ) * 100

/-- Funnel order → revenue, i.e. aggregate AOV (prac.py line 285). -/
def order_to_revenue (v : List Record) : ℚ :=
  sumRevenue v / (sumOrders v : ℚ)

/-- Funnel ROAS (prac.py line 286): summed revenue over summed payout. -/
def funnel_roas (v : List Record) : ℚ :=
  sumRevenue v / sumPayout v

/-- Non-empty view whose payout, orders, reach and engagement sums are
all zero (its one record has revenue 100 and every denominator field 0). -/
def vZero : List Record := [clean_and_engineer rAllZero]

/-- C10: on the non-empty view `vZero` every aggregated denominator
(summed payout, orders, reach, engagement) is zero, yet the overview
and funnel KPIs are computed as unguarded divisions over these sums —
each equation below exhibits the literal division by zero — while the
per-row metrics of the same record are all null (`none`).  The
aggregates are total ℚ-valued expressions, not the null the per-row
metrics produce. -/
theorem C10_aggregate_division_unguarded :
    vZero.length = 1 ∧
    sumPayout vZero = 0 ∧
    sumOrders vZero = 0 ∧
    sumReach vZero = 0 ∧
    sumEngagement vZero = 0 ∧
    (clean_and_engineer rAllZero).roas = none ∧
    (clean_and_engineer rAllZero).roi_percentage = none ∧
    (clean_and_engineer rAllZero).average_order_value = none ∧
    (clean_and_engineer rAllZero).engagement_rate = none ∧
    roi_all vZero = (sumRevenue vZero - 0) / 0 * 100 ∧
    cost_per_order vZero = sumPayout vZero / 0 ∧
    conversion_efficiency vZero = (sumOrders vZero : ℚ) / 0 * 100 ∧
    reach_to_engagement vZero = (sumEngagement vZero : ℚ) / 0 * 100 ∧
    engagement_to_order vZero = (sumOrders vZero : ℚ) / 0 * 100 ∧
    order_to_revenue vZero = sumRevenue vZero / 0 ∧
    funnel_roas vZero = sumRevenue vZero / 0 := by
  have hpay : sumPayout vZero = 0 := by
    simp [sumPayout, vZero, clean_and_engineer, rAllZero, rZeroPayout]
  have hord : sumOrders vZero = 0 := by
    simp [sumOrders, vZero, clean_and_engineer, rAllZero, rZeroPayout]
  have hreach : sumReach vZero = 0 := by
    simp [sumReach, vZero, clean_and_engineer, rAllZero, rZeroPayout]
  have heng : sumEngagement vZero = 0 := by
    simp [sumEngagement, vZero, clean_and_engineer, rAllZero, rZeroPayout]
  refine ⟨rfl,
    hpay, hord, hreach, heng,
    by simp [clean_and_engineer, rAllZero, rZeroPayout],
    by simp [clean_and_engineer, rAllZero, rZeroPayout],
    by simp [clean_and_engineer, rAllZero, rZeroPayout],
    by simp [clean_and_engineer, rAllZero, rZeroPayout],
    ?_, ?_, ?_, ?_, ?_, ?_, ?_⟩
  · rw [roi_all, hpay]
  · rw [cost_per_order, hord]; norm_num
  · rw [conversion_efficiency, hreach]; norm_num
  · rw [reach_to_engagement, hreach]; norm_num
  · rw [engagement_to_order, heng]; norm_num
  · rw [order_to_revenue, hord]; norm_num
  · rw [funnel_roas, hpay]

/-- Non-null values of the `roi_percentage` column of a view.  Pandas
`.mean()` and `.std()` skip `NaN` entries, so both statistics are
computed over exactly this list. -/
def roiVals (v : List Record) : List ℚ :=
  v.filterMap fun r => r.roi_percentage

/-- Column mean, `Series.mean()` (skipna). -/
def qmean (l : List ℚ) : ℚ := l.sum / (l.length : ℚ)

/-- Sample variance with denominator `n - 1`, matching the pandas
default `Series.std(ddof=1)` squared.  (For `n ≤ 1` pandas yields `NaN`
and every outlier comparison against it is false; here the expression
degrades to `0` and the squared outlier condition below is likewise
false for every row, so the outlier subset agrees.) -/
def sampleVar (l : List ℚ) : ℚ :=
  (l.map fun x => (x - qmean l) ^ 2).sum / ((l.length : ℚ) - 1)

/-- Outlier subset (prac.py lines 456-459):
rows where `roi_percentage > mean + 2*std` or `< mean - 2*std`, with
`std = Series.std()` (sample standard deviation, the square root of
`sampleVar`).  A `NaN` (`none`) entry fails both comparisons, so such
rows are never members.  Since the standard deviation is the square
root of a non-negative rational, the two comparisons hold exactly when
`(x - mean)² > 4 · var`; the embedding uses this square form to stay
within ℚ, and the C6 theorem proves it equivalent to the literal
`|x - mean| > 2·√var` condition over ℝ. -/
def outlier_df (v : List Record) : List Record :=
  v.filter fun r =>
    match r.roi_percentage with
    | none => false
    | some x =>
        decide ((x - qmean (roiVals v)) ^ 2 > 4 * sampleVar (roiVals v))

/-- Sample variance is non-negative (for `n ≤ 1` it is `0` by the
division-by-zero convention of ℚ). -/
theorem sampleVar_nonneg (l : List ℚ) : 0 ≤ sampleVar l := by
  match l with
  | [] => simp [sampleVar]
  | [x] => simp [sampleVar]
  | a :: b :: t =>
      apply div_nonneg
      · apply List.sum_nonneg
        intro y hy
        simp only [List.mem_map] at hy
        obtain ⟨z, _, rfl⟩ := hy
        positivity
      · have h2 : (2 : ℚ) ≤ ((a :: b :: t).length : ℚ) := by
          simp only [List.length_cons]
          push_cast
          linarith [Nat.cast_nonneg (α := ℚ) t.length]
        linarith

/-- Squared form of the two-sided two-sigma condition is equivalent to
the literal distance condition with the real square root. -/
theorem sq_gt_iff_abs_gt_two_sqrt (x m s : ℚ) (hs : 0 ≤ s) :
    (x - m) ^ 2 > 4 * s ↔
      |(x : ℝ) - (m : ℝ)| > 2 * Real.sqrt (s : ℝ) := by
  have hs' : (0 : ℝ) ≤ (s : ℝ) := by exact_mod_cast hs
  have h4 : (0 : ℝ) ≤ 4 * (s : ℝ) := by linarith
  rw [gt_iff_lt, gt_iff_lt]
  rw [show (2 : ℝ) * Real.sqrt (s : ℝ) = Real.sqrt (4 * (s : ℝ)) by
    rw [show (4 : ℝ) * (s : ℝ) = 2 ^ 2 * (s : ℝ) by ring,
      Real.sqrt_mul (by positivity), Real.sqrt_sq (by norm_num)]]
  rw [show |(x : ℝ) - (m : ℝ)| = Real.sqrt (((x : ℝ) - (m : ℝ)) ^ 2) from
    (Real.sqrt_sq_eq_abs _).symm]
  rw [Real.sqrt_lt_sqrt_iff h4]
  constructor
  · intro h; exact_mod_cast h
  · intro h; exact_mod_cast h

/-- C6: a record belongs to the outlier subset exactly when it belongs
to the view, its `roi_percentage` is non-null, and that value lies more
than two sample standard deviations (square root of the `n − 1` sample
variance) from the mean of the view's non-null ROI values; null-ROI
records are excluded from both the statistics and the membership. -/
theorem C6_outlier_membership (v : List Record) (r : Record) :
    r ∈ outlier_df v ↔
      r ∈ v ∧ ∃ x : ℚ, r.roi_percentage = some x ∧
        |(x : ℝ) - (qmean (roiVals v) : ℝ)| >
          2 * Real.sqrt (sampleVar (roiVals v) : ℝ) := by
  rw [outlier_df, List.mem_filter]
  apply and_congr_right
  intro _
  rcases hroi : r.roi_percentage with _ | x
  · simp [hroi]
  · simp only [hroi, Option.some.injEq, decide_eq_true_eq]
    constructor
    · intro h
      exact ⟨x, rfl,
        (sq_gt_iff_abs_gt_two_sqrt x (qmean (roiVals v)) (sampleVar (roiVals v))
          (sampleVar_nonneg _)).mp h⟩
    · rintro ⟨y, rfl, h⟩
      exact (sq_gt_iff_abs_gt_two_sqrt x (qmean (roiVals v)) (sampleVar (roiVals v))
        (sampleVar_nonneg _)).mpr h

/-- Descending lexicographic order on position-tagged rows: larger
metric first, and on a metric tie the smaller original position first.
Pandas `nlargest(n, col)` (prac.py line 314, default `keep="first"`) is
a stable descending sort by `col` followed by `head(n)`; since original
positions are pairwise distinct, that stable sort orders the tagged
rows exactly by this relation. -/
def descLex (key : Record → ℚ) (a b : Nat × Record) : Prop :=
  key b.2 < key a.2 ∨ (key a.2 = key b.2 ∧ a.1 ≤ b.1)

/-- Ascending counterpart for `nsmallest(n, col)` (prac.py line 333). -/
def ascLex (key : Record → ℚ) (a b : Nat × Record) : Prop :=
  key a.2 < key b.2 ∨ (key a.2 = key b.2 ∧ a.1 ≤ b.1)

instance (key : Record → ℚ) : DecidableRel (descLex key) := fun a b => by
  unfold descLex; infer_instance

instance (key : Record → ℚ) : DecidableRel (ascLex key) := fun a b => by
  unfold ascLex; infer_instance

instance (key : Record → ℚ) : IsTotal (Nat × Record) (descLex key) where
  total a b := by
    rcases lt_trichotomy (key a.2) (key b.2) with h | h | h
    · exact Or.inr (Or.inl h)
    · rcases Nat.le_total a.1 b.1 with h2 | h2
      · exact Or.inl (Or.inr ⟨h, h2⟩)
      · exact Or.inr (Or.inr ⟨h.symm, h2⟩)
    · exact Or.inl (Or.inl h)

instance (key : Record → ℚ) : IsTotal (Nat × Record) (ascLex key) where
  total a b := by
    rcases lt_trichotomy (key a.2) (key b.2) with h | h | h
    · exact Or.inl (Or.inl h)
    · rcases Nat.le_total a.1 b.1 with h2 | h2
      · exact Or.inl (Or.inr ⟨h, h2⟩)
      · exact Or.inr (Or.inr ⟨h.symm, h2⟩)
    · exact Or.inr (Or.inl h)

instance (key : Record → ℚ) : IsTrans (Nat × Record) (descLex key) where
  trans a b c hab hbc := by
    rcases hab with h1 | ⟨e1, l1⟩
    · rcases hbc with h2 | ⟨e2, l2⟩
      · exact Or.inl (lt_trans h2 h1)
      · exact Or.inl (by rw [← e2]; exact h1)
    · rcases hbc with h2 | ⟨e2, l2⟩
      · exact Or.inl (by rw [e1]; exact h2)
      · exact Or.inr ⟨e1.trans e2, le_trans l1 l2⟩

instance (key : Record → ℚ) : IsTrans (Nat × Record) (ascLex key) where
  trans a b c hab hbc := by
    rcases hab with h1 | ⟨e1, l1⟩
    · rcases hbc with h2 | ⟨e2, l2⟩
      · exact Or.inl (lt_trans h1 h2)
      · exact Or.inl (by rw [e2] at h1; exact h1)
    · rcases hbc with h2 | ⟨e2, l2⟩
      · exact Or.inl (by rw [e1]; exact h2)
      · exact Or.inr ⟨e1.trans e2, le_trans l1 l2⟩

/-- Position-tagged `data.nlargest(n, col)` (prac.py line 314): stable
sort of the enumerated view in descending metric order, then the first
`n` entries. -/
def nlargestIdx (n : Nat) (key : Record → ℚ) (v : List Record) :
    List (Nat × Record) :=
  (v.enum.insertionSort (descLex key)).take n

/-- `data.nlargest(n, col)` itself: the selected rows. -/
def nlargest (n : Nat) (key : Record → ℚ) (v : List Record) : List Record :=
  (nlargestIdx n key v).map fun p => p.2

/-- Position-tagged `data.nsmallest(n, col)` (prac.py line 333). -/
def nsmallestIdx (n : Nat) (key : Record → ℚ) (v : List Record) :
    List (Nat × Record) :=
  (v.enum.insertionSort (ascLex key)).take n

/-- `data.nsmallest(n, col)` itself: the selected rows. -/
def nsmallest (n : Nat) (key : Record → ℚ) (v : List Record) : List Record :=
  (nsmallestIdx n key v).map fun p => p.2

/-- The sorted, position-tagged view has pairwise-distinct position
tags (it is a permutation of the enumeration). -/
theorem insertionSort_enum_fst_ne (r : (Nat × Record) → (Nat × Record) → Prop)
    [DecidableRel r] (v : List Record) :
    (v.enum.insertionSort r).Pairwise fun a b => a.1 ≠ b.1 := by
  have hperm := List.perm_insertionSort r v.enum
  have hnd : ((v.enum.insertionSort r).map Prod.fst).Nodup := by
    have h0 : (v.enum.map Prod.fst).Nodup := by
      rw [List.enum_map_fst]; exact List.nodup_range _
    exact ((hperm.map Prod.fst).nodup_iff).mpr h0
  exact List.pairwise_map.mp hnd

/-- Rows selected by the tagged sort come from the view. -/
theorem mem_of_mem_insertionSort_take
    (r : (Nat × Record) → (Nat × Record) → Prop) [DecidableRel r]
    (n : Nat) (v : List Record) (p : Nat × Record)
    (hp : p ∈ (v.enum.insertionSort r).take n) : p.2 ∈ v := by
  have h1 : p ∈ v.enum.insertionSort r :=
    (List.take_sublist n _).subset hp
  have h2 : p ∈ v.enum := (List.perm_insertionSort r v.enum).subset h1
  obtain ⟨hlt, heq⟩ := List.mem_enum h2
  rw [heq]
  exact List.getElem_mem hlt

/-- Example view of spec §8 for Top-N: rows A, B, C, D with revenues
100, 300, 300, 50. -/
def exampleRows : List Record :=
  [{ rHigh with name := "A", revenue := 100 },
   { rHigh with name := "B", revenue := 300 },
   { rHigh with name := "C", revenue := 300 },
   { rHigh with name := "D", revenue := 50 }].map clean_and_engineer

/-- C7: Top-N / Bottom-N selection is a stable partial sort on the
chosen metric: in the position-tagged output, any earlier entry either
has a strictly better metric or ties it with a strictly smaller
original position (ties keep original row order); every selected row
comes from the view; and Top-3 by revenue on rows A:100, B:300, C:300,
D:50 returns B, C, A. -/
theorem C7_topn_stable_partial_sort :
    (∀ (n : Nat) (key : Record → ℚ) (v : List Record),
      (nlargestIdx n key v).Pairwise fun a b =>
        key b.2 < key a.2 ∨ (key a.2 = key b.2 ∧ a.1 < b.1)) ∧
    (∀ (n : Nat) (key : Record → ℚ) (v : List Record),
      (nsmallestIdx n key v).Pairwise fun a b =>
        key a.2 < key b.2 ∨ (key a.2 = key b.2 ∧ a.1 < b.1)) ∧
    (∀ (n : Nat) (key : Record → ℚ) (v : List Record) (r : Record),
      r ∈ nlargest n key v → r ∈ v) ∧
    (∀ (n : Nat) (key : Record → ℚ) (v : List Record) (r : Record),
      r ∈ nsmallest n key v → r ∈ v) ∧
    (nlargest 3 (fun r => r.revenue) exampleRows).map (fun r => r.name) =
      ["B", "C", "A"] := by
  refine ⟨?_, ?_, ?_, ?_, ?_⟩
  · intro n key v
    apply List.Pairwise.sublist (List.take_sublist n _)
    have hs := List.sorted_insertionSort (descLex key) v.enum
    have hne := insertionSort_enum_fst_ne (descLex key) v
    refine (hs.and hne).imp ?_
    rintro a b ⟨hab, hfst⟩
    rcases hab with h | ⟨he, hle⟩
    · exact Or.inl h
    · exact Or.inr ⟨he, lt_of_le_of_ne hle hfst⟩
  · intro n key v
    apply List.Pairwise.sublist (List.take_sublist n _)
    have hs := List.sorted_insertionSort (ascLex key) v.enum
    have hne := insertionSort_enum_fst_ne (ascLex key) v
    refine (hs.and hne).imp ?_
    rintro a b ⟨hab, hfst⟩
    rcases hab with h | ⟨he, hle⟩
    · exact Or.inl h
    · exact Or.inr ⟨he, lt_of_le_of_ne hle hfst⟩
  · intro n key v r hr
    rw [nlargest, List.mem_map] at hr
    obtain ⟨p, hp, rfl⟩ := hr
    exact mem_of_mem_insertionSort_take (descLex key) n v p hp
  · intro n key v r hr
    rw [nsmallest, List.mem_map] at hr
    obtain ⟨p, hp, rfl⟩ := hr
    exact mem_of_mem_insertionSort_take (ascLex key) n v p hp
  · decide

/-- Enriched row given by explicit literals, for concrete evaluation. -/
def recSimple : Record :=
  { date := ⟨2024, 1, 1⟩, name := "S", platform := "Instagram",
    campaign := "Spring", category := "Beauty", gender := "Female",
    basis := "Post", reach := 10, followers := 11, likes := 3,
    comments := 1, orders := 2, revenue := 5, total_payout := 1,
    engagement := 4, engagement_rate := some 40, roas := some 5,
    roi_percentage := some 400, average_order_value := none,
    performance_category := "High Performer", year_month := none }

/-- Witness for C7: the membership conjunct applied at a concrete
selected row of a concrete view. -/
theorem C7_topn_stable_partial_sort_witness :
    recSimple ∈ [recSimple] :=
  C7_topn_stable_partial_sort.2.2.1 1 (fun r => r.revenue) [recSimple]
    recSimple (by decide)

/-- The fourteen documented required columns (prac.py lines 20-36). -/
def requiredCols : List String :=
  ["date", "name", "platform", "campaign", "category", "gender", "reach",
   "followers", "likes", "comments", "orders", "revenue", "total_payout",
   "basis"]

/-- The base columns `clean_and_engineer` actually reads, in the order
of their first read (prac.py lines 64-69): `date` (64), `likes` and
`comments` (65), `reach` (66), `revenue` and `total_payout` (67),
`orders` (69).  The other seven documented columns are never touched
during normalization. -/
def readCols : List String :=
  ["date", "likes", "comments", "reach", "revenue", "total_payout", "orders"]

/-- Column read `df[c]`: pandas raises `KeyError(c)` when the column is
absent, else the frame is unchanged. -/
def requireCol (cols : List String) (c : String) :
    Except String (List String) :=
  if c ∈ cols then Except.ok cols else Except.error ("KeyError: " ++ c)

/-- Column-presence semantics of `clean_and_engineer`
(prac.py lines 63-76): the sequence of column reads in source order,
each able to fail with `KeyError`, and the column assignments, each
making the assigned name present (modelled by appending the name; reads
of a column assigned on an earlier line — `engagement` at line 66,
`revenue`/`total_payout` re-reads at lines 68-69, `roi_percentage` at
line 70 — cannot fail and need no check).  Elementwise arithmetic on
present columns never raises, so this captures exactly the
success/failure behaviour of the function on a table with a given
column set. -/
def clean_and_engineer_cols (cols : List String) :
    Except String (List String) := do
  let c1 ← requireCol cols "date"
  let c2 ← requireCol c1 "likes"
  let c3 ← requireCol c2 "comments"
  let c4 := c3 ++ ["engagement"]
  let c5 ← requireCol c4 "reach"
  let c6 := c5 ++ ["engagement_rate"]
  let c7 ← requireCol c6 "revenue"
  let c8 ← requireCol c7 "total_payout"
  let c9 := c8 ++ ["roas"]
  let c10 := c9 ++ ["roi_percentage"]
  let c11 ← requireCol c10 "orders"
  let c12 := c11 ++ ["average_order_value"]
  let c13 := c12 ++ ["performance_category"]
  return c13

/-- The fourteen required columns with `platform` removed. -/
def colsNoPlatform : List String :=
  ["date", "name", "campaign", "category", "gender", "reach", "followers",
   "likes", "comments", "orders", "revenue", "total_payout", "basis"]

/-- The fourteen required columns with both `date` and `likes` removed. -/
def colsMissingDateLikes : List String :=
  ["name", "platform", "campaign", "category", "gender", "reach",
   "followers", "comments", "orders", "revenue", "total_payout", "basis"]

/-- Counterexample to C8: a table lacking the required column
`platform` normalizes without any error at all, and a table lacking
both `date` and `likes` fails with a message naming only `date` — no
`SchemaError`, no enumeration of all missing columns. -/
theorem C8_counterexample_no_schema_validation :
    "platform" ∈ requiredCols ∧
    colsNoPlatform.contains "platform" = false ∧
    (clean_and_engineer_cols colsNoPlatform).isOk = true ∧
    clean_and_engineer_cols colsMissingDateLikes =
      Except.error "KeyError: date" := by
  refine ⟨by decide, by decide, by decide, by rfl⟩

/-- C8 (amended): normalization performs no schema validation.  It
succeeds exactly when the seven columns it reads are present —
regardless of the other seven documented columns — and when some read
column is missing it fails with a `KeyError` naming only the first
missing column in read order. -/
theorem C8_missing_columns_keyerror (cols : List String) :
    ((∀ c ∈ readCols, c ∈ cols) →
      (clean_and_engineer_cols cols).isOk = true) ∧
    (∀ c : String,
      readCols.find? (fun x => !(decide (x ∈ cols))) = some c →
      clean_and_engineer_cols cols = Except.error ("KeyError: " ++ c)) := by
  by_cases h1 : "date" ∈ cols
  · by_cases h2 : "likes" ∈ cols
    · by_cases h3 : "comments" ∈ cols
      · by_cases h4 : "reach" ∈ cols
        · by_cases h5 : "revenue" ∈ cols
          · by_cases h6 : "total_payout" ∈ cols
            · by_cases h7 : "orders" ∈ cols
              · constructor
                · intro _
                  simp [clean_and_engineer_cols, requireCol, h1, h2, h3, h4,
                    h5, h6, h7, Bind.bind, Except.bind, Pure.pure,
                    Except.pure, Except.isOk, Except.toBool]
                · intro c hc
                  simp [readCols, List.find?, h1, h2, h3, h4, h5, h6, h7] at hc
              · refine ⟨fun h => absurd (h "orders" (by decide)) h7,
                  fun c hc => ?_⟩
                simp [readCols, List.find?, h1, h2, h3, h4, h5, h6, h7] at hc
                subst hc
                simp [clean_and_engineer_cols, requireCol, h1, h2, h3, h4,
                  h5, h6, h7, Bind.bind, Except.bind]
            · refine ⟨fun h => absurd (h "total_payout" (by decide)) h6,
                fun c hc => ?_⟩
              simp [readCols, List.find?, h1, h2, h3, h4, h5, h6] at hc
              subst hc
              simp [clean_and_engineer_cols, requireCol, h1, h2, h3, h4, h5,
                h6, Bind.bind, Except.bind]
          · refine ⟨fun h => absurd (h "revenue" (by decide)) h5,
              fun c hc => ?_⟩
            simp [readCols, List.find?, h1, h2, h3, h4, h5] at hc
            subst hc
            simp [clean_and_engineer_cols, requireCol, h1, h2, h3, h4, h5,
              Bind.bind, Except.bind]
        · refine ⟨fun h => absurd (h "reach" (by decide)) h4,
            fun c hc => ?_⟩
          simp [readCols, List.find?, h1, h2, h3, h4] at hc
          subst hc
          simp [clean_and_engineer_cols, requireCol, h1, h2, h3, h4,
            Bind.bind, Except.bind]
      · refine ⟨fun h => absurd (h "comments" (by decide)) h3,
          fun c hc => ?_⟩
        simp [readCols, List.find?, h1, h2, h3] at hc
        subst hc
        simp [clean_and_engineer_cols, requireCol, h1, h2, h3,
          Bind.bind, Except.bind]
    · refine ⟨fun h => absurd (h "likes" (by decide)) h2, fun c hc => ?_⟩
      simp [readCols, List.find?, h1, h2] at hc
      subst hc
      simp [clean_and_engineer_cols, requireCol, h1, h2,
        Bind.bind, Except.bind]
  · refine ⟨fun h => absurd (h "date" (by decide)) h1, fun c hc => ?_⟩
    simp [readCols, List.find?, h1] at hc
    subst hc
    simp [clean_and_engineer_cols, requireCol, h1, Bind.bind, Except.bind]

/-- Witness for C8 (amended): a complete table normalizes, and the
table missing `date` and `likes` fails naming only `date`. -/
theorem C8_missing_columns_keyerror_witness :
    (clean_and_engineer_cols requiredCols).isOk = true ∧
    clean_and_engineer_cols colsMissingDateLikes =
      Except.error ("KeyError: " ++ "date") :=
  ⟨(C8_missing_columns_keyerror requiredCols).1 (by decide),
   (C8_missing_columns_keyerror colsMissingDateLikes).2 "date" (by decide)⟩
